import Mathlib

/-!
Verification of the supply-chain tutorial's classification and cascade logic.

The development shallowly embeds the Python sources:
* `supply_chain/rules_mock.py` (deterministic keyword classifier `_analyze_risk_level`),
* `supply_chain/rules_ai_baseline.py` and `rules_ai_enhanced.py`
  (`_ask_llm`, `_classify_and_print`, `_escalate_medium_to_high` and the rule cascade),
* `supply_chain/schema.py` and `initial_state.py` (the fact records and seed facts),
* `runners/mock_simulation.py` (`run_scenario`).

Strings are Lean `String`s; Python substring tests (`kw in text`) become `containsSub`;
the LLM round trip is modelled by its reply text.  The external rule engine
(`vulcan_core`) is not part of the repository; its evaluation loop is modelled from
the spec's stated policy (fixed rule order, re-evaluation to a fixed point, each rule
firing at most once per distinct fact-value transition it depends on), while every
rule condition, action and message is translated from the repository's own lambdas.
-/

/-- Boolean substring test on character lists: Python's `needle in hay`. -/
def hasSub (needle : List Char) : List Char → Bool
  | [] => needle.isEmpty
  | c :: t => needle.isPrefixOf (c :: t) || hasSub needle t

/-- Python's `needle in hay` on strings. -/
def containsSub (needle hay : String) : Bool :=
  hasSub needle.toList hay.toList

/-- Characterwise lowercasing; models Python's `str.lower()` on the ASCII
texts this program handles. -/
def strLower (s : String) : String := String.mk (s.toList.map Char.toLower)

/-- Characterwise uppercasing; models Python's `str.upper()` on the ASCII
texts this program handles. -/
def strUpper (s : String) : String := String.mk (s.toList.map Char.toUpper)

theorem isPrefixOf_of_append {n m l : List Char}
    (h : (n ++ m).isPrefixOf l = true) : n.isPrefixOf l = true := by
  induction n generalizing l with
  | nil => simp [List.isPrefixOf]
  | cons a as ih =>
    cases l with
    | nil => simp [List.isPrefixOf] at h
    | cons b bs =>
      simp only [List.cons_append, List.isPrefixOf, Bool.and_eq_true] at h ⊢
      exact ⟨h.1, ih h.2⟩

theorem hasSub_of_append {n m l : List Char}
    (h : hasSub (n ++ m) l = true) : hasSub n l = true := by
  induction l with
  | nil =>
    simp only [hasSub, List.isEmpty_eq_true, List.append_eq_nil] at h ⊢
    exact h.1
  | cons c t ih =>
    simp only [hasSub, Bool.or_eq_true] at h ⊢
    rcases h with h | h
    · exact Or.inl (isPrefixOf_of_append h)
    · exact Or.inr (ih h)

/-! ### Mock classifier (`rules_mock.py`, `_analyze_risk_level`) -/

/-- HIGH-signal keyword tuple from `_analyze_risk_level`. -/
def risk_keywords_high : List String := ["tariff", "embargo", "sanction"]

/-- MEDIUM-signal keyword tuple from `_analyze_risk_level`. -/
def risk_keywords_med : List String := ["delay", "delays", "shortage", "congestion"]

/-- Question line printed for microprompt 1. -/
def microprompt1 : String := "\n[MICROPROMPT 1] Does the bulletin indicate supply-chain risk?"

/-- Question line printed for microprompt 2. -/
def microprompt2 : String := "[MICROPROMPT 2] What is the *severity* of that risk?"

/-- Question line printed for microprompt 3 (mentions the region). -/
def microprompt3 (region : String) : String :=
  "[MICROPROMPT 3] Is the risk specific to " ++ region ++ "?"

/-- Embedding of `_analyze_risk_level(content, region)` from `rules_mock.py`.
Returns the risk level together with the list of printed trace lines. -/
def analyze_risk_level (content region : String) : String × List String :=
  let content_lc := strLower content
  let has_risk := (risk_keywords_high ++ risk_keywords_med).any
    (fun k => containsSub k content_lc)
  if !has_risk then
    ("LOW", [microprompt1, "  → NO", microprompt2, "  → LOW",
             microprompt3 region, "  → YES\n"])
  else
    let severity :=
      if risk_keywords_high.any (fun k => containsSub k content_lc) then "HIGH"
      else "MEDIUM"
    (severity, [microprompt1, "  → YES", microprompt2, "  → " ++ severity,
                microprompt3 region, "  → YES\n"])

/-- Deterministic classification as the spec words it (section 4.1): scan the
lowercased text for the HIGH-signal set, then for the MEDIUM-signal set
delay/shortage/congestion, else LOW.  Stated separately from the source
embedding so the two can be compared. -/
def spec_det_classify (content : String) : String :=
  if ["tariff", "embargo", "sanction"].any
      (fun k => containsSub k (strLower content)) then "HIGH"
  else if ["delay", "shortage", "congestion"].any
      (fun k => containsSub k (strLower content)) then "MEDIUM"
  else "LOW"

/-! ### LLM reply parsing (`rules_ai_baseline.py`, `_ask_llm`) -/

/-- One alternation step of the regex `(YES|NO|LOW|MEDIUM|HIGH)` at the start of
`s`: the alternatives are tried in the pattern's order and the matched token is
returned together with the rest of the input. -/
def matchTokenAt (s : List Char) : Option (String × List Char) :=
  match s.dropPrefix? "YES".toList with
  | some r => some ("YES", r)
  | none =>
    match s.dropPrefix? "NO".toList with
    | some r => some ("NO", r)
    | none =>
      match s.dropPrefix? "LOW".toList with
      | some r => some ("LOW", r)
      | none =>
        match s.dropPrefix? "MEDIUM".toList with
        | some r => some ("MEDIUM", r)
        | none =>
          match s.dropPrefix? "HIGH".toList with
          | some r => some ("HIGH", r)
          | none => none

/-- Fuelled scan for `re.findall`: at each position try to match a token;
on success continue after it, otherwise advance one character.  Each step
consumes at least one character, so fuel `s.length` is exact. -/
def scanAux : Nat → List Char → List String
  | 0, _ => []
  | _, [] => []
  | fuel + 1, c :: rest =>
    match matchTokenAt (c :: rest) with
    | some (t, r) => t :: scanAux fuel r
    | none => scanAux fuel rest

/-- `re.findall(r"(YES|NO|LOW|MEDIUM|HIGH)", reply.upper())` from `_ask_llm`. -/
def findall (reply : String) : List String :=
  scanAux (strUpper reply).toList.length (strUpper reply).toList

/-- Embedding of `_ask_llm`: the external `_LLM.invoke` round trip is modelled
by its reply text.  Raising `ValueError` becomes `Except.error`. -/
def ask_llm (reply : String) : Except String (Bool × String × Bool) :=
  match findall reply with
  | t0 :: t1 :: t2 :: _ => .ok (t0 == "YES", t1, t2 == "YES")
  | _ => .error ("Unexpected LLM reply: " ++ reply)

/-- Embedding of `_classify_and_print` (identical in `rules_ai_baseline.py` and
`rules_ai_enhanced.py`): combine the three parsed answers into the final level
`severity if (has_risk and region_specific) else "LOW"`. -/
def classify_and_print (reply region : String) :
    Except String (String × String) :=
  match ask_llm reply with
  | .error e => .error e
  | .ok (has_risk, severity, region_specific) =>
    .ok (region, if has_risk && region_specific then severity else "LOW")

theorem findall_sample :
    findall "Yes. The severity is HIGH. yes" = ["YES", "HIGH", "YES"] := by rfl

theorem analyze_sample_high :
    (analyze_risk_level "Tariffs announced on electronics" "Eastern Corridor").1 = "HIGH" := by
  rfl

theorem analyze_sample_medium :
    (analyze_risk_level "Shipping delays reported at main port" "Eastern Corridor").1
      = "MEDIUM" := by
  rfl

theorem analyze_sample_low :
    (analyze_risk_level "Routine quarterly report, no disruptions" "X").1 = "LOW" := by
  rfl

/-! ### Fact schema (`supply_chain/schema.py`) and seed facts (`initial_state.py`) -/

/-- Fact `Supplier` from `schema.py`. -/
structure Supplier where
  name : String
  region : String
deriving DecidableEq, Repr

/-- Fact `NewsBulletin` from `schema.py`. -/
structure NewsBulletin where
  content : String
  region : String
deriving DecidableEq, Repr

/-- Fact `RegionRisk` from `schema.py`; the level is a string as in the
source (`Literal["HIGH", "MEDIUM", "LOW"]` is a typing hint, not enforced). -/
structure RegionRisk where
  region : String
  level : String
deriving DecidableEq, Repr

/-- Fact `ActiveSupplier` from `schema.py`. -/
structure ActiveSupplier where
  supplier_name : String
  supplier_region : String
deriving DecidableEq, Repr

/-- Fact `Alert` from `schema.py`. -/
structure Alert where
  message : String
deriving DecidableEq, Repr

/-- `INITIAL_SUPPLIER` from `initial_state.py`. -/
def INITIAL_SUPPLIER : Supplier := { name := "CyberSystems Inc.", region := "Eastern Corridor" }

/-- `BACKUP_SUPPLIER` from `initial_state.py`. -/
def BACKUP_SUPPLIER : Supplier := { name := "TechFlow Solutions", region := "Western Corridor" }

/-- `INITIAL_ACTIVE_SUPPLIER` from `initial_state.py`. -/
def INITIAL_ACTIVE_SUPPLIER : ActiveSupplier :=
  { supplier_name := "CyberSystems Inc.", supplier_region := "Eastern Corridor" }

/-- `INITIAL_REGION_RISK_EASTERN` from `initial_state.py`. -/
def INITIAL_REGION_RISK_EASTERN : RegionRisk := { region := "Eastern Corridor", level := "LOW" }

/-- `INITIAL_REGION_RISK_WESTERN` from `initial_state.py`. -/
def INITIAL_REGION_RISK_WESTERN : RegionRisk := { region := "Western Corridor", level := "LOW" }

/-! ### Fact store and rule cascade

Modelled from the spec: the fact store keeps the current fact instances per
type (`RegionRisk` holds one current value per region, `ActiveSupplier` is a
replaced single value, `Alert` is append-only), since the store itself lives
in the external `vulcan_core` engine.  All conditions, actions and message
texts below are translated from the rule definitions in `rules_mock.py`,
`rules_ai_baseline.py` and `rules_ai_enhanced.py`. -/

/-- The working memory of one scenario run.  `trace` collects lines printed by
rule actions (the enhanced-mode fallback override prints one). -/
structure Store where
  suppliers : List Supplier
  bulletins : List NewsBulletin
  risks : List RegionRisk
  actives : List ActiveSupplier
  alerts : List Alert
  trace : List String
deriving DecidableEq, Repr

/-- Boolean list membership via decidable equality. -/
def memD [DecidableEq α] (x : α) : List α → Bool
  | [] => false
  | y :: l => if y = x then true else memD x l

/-- First element of `bs` paired with the first `a` admitting one, matching
the engine trying rule bindings over pairs of fact instances. -/
def firstPair (p : α → β → Bool) (as : List α) (bs : List β) : Option (α × β) :=
  as.findSome? (fun a => (bs.find? (p a)).map (fun b => (a, b)))

/-- Like `firstPair` over three fact instances. -/
def firstTriple (p : α → β → γ → Bool) (as : List α) (bs : List β) (cs : List γ) :
    Option (α × β × γ) :=
  as.findSome? (fun a => (bs.findSome? (fun b => (cs.find? (p a b)).map (fun c => (b, c)))).map
    (fun bc => (a, bc.1, bc.2)))

/-- Condition of rule `mock_classify_region_risk` / `ai_classify_region_risk`:
`bool(NewsBulletin.content)`. -/
def classifyCond (b : NewsBulletin) : Bool := b.content != ""

/-- Critical keyword tuple `_HIGH_KEYWORDS` from `rules_ai_enhanced.py`. -/
def HIGH_KEYWORDS : List String := ["shutdown", "embargo", "strike"]

/-- Keyword part of the `escalate_medium_keyword` condition:
`any(k in NewsBulletin.content.lower() for k in _HIGH_KEYWORDS)`. -/
def hasCriticalKw (content : String) : Bool :=
  HIGH_KEYWORDS.any (fun k => containsSub k (strLower content))

/-- Condition of rule `escalate_medium_keyword` from `rules_ai_enhanced.py`. -/
def escalateCond (r : RegionRisk) (b : NewsBulletin) : Bool :=
  r.level == "MEDIUM" && hasCriticalKw b.content

/-- Condition of rule `switch_supplier_on_high_risk`
(`high_risk_active & backup_available` in `rules_mock.py` and the AI modules). -/
def switchCond (r : RegionRisk) (a : ActiveSupplier) (s : Supplier) : Bool :=
  (r.level == "HIGH" && a.supplier_region == r.region) && (s.region != a.supplier_region)

/-- Condition of rule `alert_on_supplier_switch`. -/
def alertSwitchCond (a : ActiveSupplier) : Bool :=
  a.supplier_region != "Eastern Corridor"

/-- Condition of rule `alert_on_medium_risk`. -/
def alertMediumCond (r : RegionRisk) : Bool := r.level == "MEDIUM"

/-- Alert text of rule `alert_on_supplier_switch`. -/
def criticalMsg (a : ActiveSupplier) : String :=
  "CRITICAL ALERT: The new primary supplier is " ++ a.supplier_name ++
    ", (" ++ a.supplier_region ++ ")"

/-- Alert text of rule `alert_on_medium_risk`. -/
def mediumMsg (r : RegionRisk) : String :=
  "ALERT: The risk in " ++ r.region ++ " has changed to MEDIUM"

/-- Line printed by `_escalate_medium_to_high` in `rules_ai_enhanced.py`. -/
def fallbackLine : String :=
  "[FALLBACK] Deterministic keyword found → escalate MEDIUM → HIGH\n"

/-- Replacement of the current `RegionRisk` for a region (spec: one current
value per region; a produced fact replaces the previous one). -/
def replaceRisk (risks : List RegionRisk) (r : RegionRisk) : List RegionRisk :=
  if risks.any (fun x => x.region == r.region) then
    risks.map (fun x => if x.region == r.region then r else x)
  else
    risks ++ [r]

/-- Action of rule `switch_supplier_on_high_risk`: produce
`ActiveSupplier(Supplier.name, Supplier.region)`, which replaces the current
single `ActiveSupplier` value (spec: replacement, not accumulation). -/
def switch_supplier_action (st : Store) (s : Supplier) : Store :=
  { st with actives := [{ supplier_name := s.name, supplier_region := s.region }] }

/-- One cascade variant: the classifier used by rule 1, and whether the
enhanced-mode `escalate_medium_keyword` rule is installed. -/
structure RuleSet where
  classify : String → String → String
  enhanced : Bool

/-- Engine state: the store plus, per rule, the fact valuations the rule has
already fired on.  Modelled from the spec's evaluation policy: each rule fires
at most once per distinct fact-value transition it depends on. -/
structure EngState where
  store : Store
  fired1 : List NewsBulletin
  fired2 : List (RegionRisk × NewsBulletin)
  fired3 : List (RegionRisk × ActiveSupplier × Supplier)
  fired4 : List ActiveSupplier
  fired5 : List RegionRisk
deriving DecidableEq, Repr

/-- One evaluation step, modelled from the spec's policy: the rules are tried
in their fixed numeric order and the first rule with a not-yet-fired matching
valuation fires; `none` means no rule can fire (the fixed point). -/
def passStep (R : RuleSet) (e : EngState) : Option EngState :=
  let st := e.store
  match st.bulletins.find? (fun b => classifyCond b && !(memD b e.fired1)) with
  | some b =>
    some { e with
      store := { st with risks := replaceRisk st.risks ⟨b.region, R.classify b.content b.region⟩ },
      fired1 := b :: e.fired1 }
  | none =>
  match (if R.enhanced then
      firstPair (fun r b => escalateCond r b && !(memD (r, b) e.fired2))
        st.risks st.bulletins
    else none) with
  | some (r, b) =>
    some { e with
      store := { st with
        risks := replaceRisk st.risks ⟨r.region, "HIGH"⟩,
        trace := st.trace ++ [fallbackLine] },
      fired2 := (r, b) :: e.fired2 }
  | none =>
  match firstTriple (fun r a s => switchCond r a s && !(memD (r, a, s) e.fired3))
      st.risks st.actives st.suppliers with
  | some (r, a, s) =>
    some { e with store := switch_supplier_action st s, fired3 := (r, a, s) :: e.fired3 }
  | none =>
  match st.actives.find? (fun a => alertSwitchCond a && !(memD a e.fired4)) with
  | some a =>
    some { e with
      store := { st with alerts := st.alerts ++ [{ message := criticalMsg a }] },
      fired4 := a :: e.fired4 }
  | none =>
  match st.risks.find? (fun r => alertMediumCond r && !(memD r e.fired5)) with
  | some r =>
    some { e with
      store := { st with alerts := st.alerts ++ [{ message := mediumMsg r }] },
      fired5 := r :: e.fired5 }
  | none => none

/-- Run the cascade to its fixed point (spec: re-evaluate until a full pass
changes nothing), with fuel bounding the number of firings. -/
def evaluate (R : RuleSet) : Nat → EngState → EngState
  | 0, e => e
  | fuel + 1, e =>
    match passStep R e with
    | some e2 => evaluate R fuel e2
    | none => e

/-- The mock cascade of `rules_mock.py`: rule 1 classifies with
`_analyze_risk_level`, and there is no escalation rule. -/
def mockRules : RuleSet :=
  { classify := fun c r => (analyze_risk_level c r).1, enhanced := false }

/-- Classifier of the AI cascades: the level computed by `_classify_and_print`
from the LLM reply delivered by `oracle`.  The `.error` branch is unreachable
in the cascade theorems, whose hypotheses pin a well-formed reply; the
malformed-reply behaviour itself is settled on `classify_and_print` directly. -/
def ai_classify (oracle : String → String → String) (c r : String) : String :=
  match classify_and_print (oracle c r) r with
  | .ok lv => lv.2
  | .error _ => "LOW"

/-- The baseline AI cascade of `rules_ai_baseline.py`. -/
def baselineRules (oracle : String → String → String) : RuleSet :=
  { classify := ai_classify oracle, enhanced := false }

/-- The enhanced AI cascade of `rules_ai_enhanced.py`. -/
def enhancedRules (oracle : String → String → String) : RuleSet :=
  { classify := ai_classify oracle, enhanced := true }

/-- The five seeded facts plus the injected bulletin, as loaded by
`run_scenario` in `runners/mock_simulation.py` and `main.py`
(bulletin region is always "Eastern Corridor"). -/
def initStore (content : String) : Store :=
  { suppliers := [INITIAL_SUPPLIER, BACKUP_SUPPLIER],
    bulletins := [{ content := content, region := "Eastern Corridor" }],
    risks := [INITIAL_REGION_RISK_EASTERN, INITIAL_REGION_RISK_WESTERN],
    actives := [INITIAL_ACTIVE_SUPPLIER],
    alerts := [],
    trace := [] }

/-- Fresh engine state for one scenario run. -/
def initEng (content : String) : EngState :=
  { store := initStore content, fired1 := [], fired2 := [], fired3 := [],
    fired4 := [], fired5 := [] }

/-- Current risk level recorded for a region. -/
def riskFor (st : Store) (region : String) : Option String :=
  (st.risks.find? (fun r => r.region == region)).map (fun r => r.level)

/-! ### Memoization of the external classification call

Modelled from the spec: both `_ask_llm` and `_analyze_risk_level` carry
`@lru_cache(maxsize=None)`; the cache (which lives in the Python standard
library, not in this repository) is modelled as an association list keyed by
the `(bulletin-text, region)` argument pair.  The returned flag records
whether the body (the remote service in AI mode) was invoked. -/

/-- One memoized call: on a cache hit the stored value is returned and the
body is not invoked; on a miss the body runs and its value is stored. -/
def cached_call {α : Type} (body : String → String → α)
    (cache : List ((String × String) × α)) (c r : String) :
    α × List ((String × String) × α) × Bool :=
  match cache.find? (fun e => e.1.1 == c && e.1.2 == r) with
  | some e => (e.2, cache, false)
  | none => (body c r, ((c, r), body c r) :: cache, true)

/-! ### Claims about the classifiers -/

/-- C1: in hybrid/AI mode, once the three expected tokens are parsed from the
LLM reply, `_classify_and_print` returns the second token as the final level
exactly when the first and third tokens are YES, and LOW in every other
case. -/
theorem claim_C1 (reply region t0 t1 t2 : String) (rest : List String)
    (h : findall reply = t0 :: t1 :: t2 :: rest) :
    classify_and_print reply region =
      .ok (region, if t0 == "YES" && t2 == "YES" then t1 else "LOW") := by
  unfold classify_and_print ask_llm
  rw [h]

/-- Witness for C1 at a concrete reply. -/
theorem claim_C1_witness :
    findall "yes. high. yes." = ["YES", "HIGH", "YES"] ∧
    classify_and_print "yes. high. yes." "Eastern Corridor" =
      .ok ("Eastern Corridor", "HIGH") :=
  ⟨rfl, by
    have h := claim_C1 "yes. high. yes." "Eastern Corridor" "YES" "HIGH" "YES" [] rfl
    simpa using h⟩

theorem containsSub_delays_delay {h : String}
    (hd : containsSub "delays" h = true) : containsSub "delay" h = true := by
  unfold containsSub at hd ⊢
  have he : "delay".toList ++ ['s'] = "delays".toList := by rfl
  exact hasSub_of_append (he ▸ hd)

/-- C2: the deterministic classifier returns HIGH when a HIGH-signal keyword
occurs in the lowercased text, MEDIUM when none does but a MEDIUM-signal
keyword does, and LOW otherwise; in particular a bulletin with a HIGH-signal
keyword and no MEDIUM-signal keyword classifies as HIGH. -/
theorem claim_C2 (content region : String) :
    (analyze_risk_level content region).1 = spec_det_classify content ∧
    (risk_keywords_high.any (fun k => containsSub k (strLower content)) = true →
      (["delay", "shortage", "congestion"].any
        (fun k => containsSub k (strLower content))) = false →
      (analyze_risk_level content region).1 = "HIGH") := by
  have main : (analyze_risk_level content region).1 = spec_det_classify content := by
    have himp := @containsSub_delays_delay (strLower content)
    unfold analyze_risk_level spec_det_classify
    simp only [risk_keywords_high, risk_keywords_med, List.any_append, List.any_cons,
      List.any_nil, Bool.or_false]
    simp only [apply_ite Prod.fst]
    revert himp
    generalize containsSub "tariff" (strLower content) = t
    generalize containsSub "embargo" (strLower content) = e
    generalize containsSub "sanction" (strLower content) = sa
    generalize containsSub "delay" (strLower content) = d
    generalize containsSub "delays" (strLower content) = ds
    generalize containsSub "shortage" (strLower content) = sh
    generalize containsSub "congestion" (strLower content) = cg
    revert t e sa d ds sh cg
    decide
  refine ⟨main, fun hh _ => ?_⟩
  rw [main]
  unfold spec_det_classify
  simp only [risk_keywords_high] at hh
  rw [if_pos hh]

/-- Witness for C2 at a concrete bulletin with a HIGH keyword and no MEDIUM
keyword. -/
theorem claim_C2_witness :
    risk_keywords_high.any
      (fun k => containsSub k (strLower "New embargo imposed on imports")) = true ∧
    (["delay", "shortage", "congestion"].any
      (fun k => containsSub k (strLower "New embargo imposed on imports"))) = false ∧
    (analyze_risk_level "New embargo imposed on imports" "Eastern Corridor").1 = "HIGH" :=
  ⟨rfl, rfl, (claim_C2 "New embargo imposed on imports" "Eastern Corridor").2 rfl rfl⟩

/-- C5: in hybrid/AI mode the classification fails (the `ValueError` for a
malformed reply) exactly when fewer than three expected tokens are found in
the reply text; the single call is not retried. -/
theorem claim_C5 (reply region : String) :
    (∃ msg, classify_and_print reply region = .error msg) ↔
      (findall reply).length < 3 := by
  cases hl : findall reply with
  | nil => simp [classify_and_print, ask_llm, hl]
  | cons t0 l1 =>
    cases l1 with
    | nil => simp [classify_and_print, ask_llm, hl]
    | cons t1 l2 =>
      cases l2 with
      | nil => simp [classify_and_print, ask_llm, hl]
      | cons t2 l3 => simp [classify_and_print, ask_llm, hl]

/-- C9: a second memoized classification call with the same
(bulletin-text, region) pair returns the first call's result, leaves the
cache unchanged and does not invoke the body again. -/
theorem claim_C9 {α : Type} (body : String → String → α)
    (cache : List ((String × String) × α)) (c r : String) :
    cached_call body (cached_call body cache c r).2.1 c r =
      ((cached_call body cache c r).1, (cached_call body cache c r).2.1, false) := by
  unfold cached_call
  cases hf : cache.find? (fun e => e.1.1 == c && e.1.2 == r) with
  | some e => simp [hf]
  | none =>
    simp only [hf]
    rw [List.find?_cons_of_pos _ (by simp)]

/-- C10: the mock classifier's risk level does not depend on the region
argument (the region only appears in the printed trace), and the
region-specificity microprompt is always answered YES. -/
theorem claim_C10 (content r1 r2 : String) :
    (analyze_risk_level content r1).1 = (analyze_risk_level content r2).1 ∧
    (analyze_risk_level content r1).2.getLast? = some "  → YES\n" := by
  unfold analyze_risk_level
  cases h : (risk_keywords_high ++ risk_keywords_med).any
      (fun k => containsSub k (strLower content)) <;>
    simp [h, List.getLast?]

/-! ### Claims about the cascade rules -/

theorem find_isSome_iff (p : α → Bool) (l : List α) :
    (l.find? p).isSome = true ↔ ∃ x ∈ l, p x = true := by
  induction l with
  | nil => simp
  | cons a t ih =>
    cases hp : p a with
    | true =>
      have hc : (a :: t).find? p = some a := by simp [List.find?, hp]
      simp only [hc, Option.isSome_some, true_iff]
      exact ⟨a, List.mem_cons_self a t, hp⟩
    | false =>
      have hc : (a :: t).find? p = t.find? p := by simp [List.find?, hp]
      rw [hc, ih]
      constructor
      · rintro ⟨x, hx, hpx⟩
        exact ⟨x, List.mem_cons_of_mem a hx, hpx⟩
      · rintro ⟨x, hx, hpx⟩
        rcases List.mem_cons.mp hx with rfl | hx2
        · rw [hp] at hpx; cases hpx
        · exact ⟨x, hx2, hpx⟩

theorem findSome_isSome_iff (f : α → Option β) (l : List α) :
    (l.findSome? f).isSome = true ↔ ∃ x ∈ l, (f x).isSome = true := by
  induction l with
  | nil => simp
  | cons a t ih =>
    cases hf : f a with
    | some b => simp [List.findSome?_cons, hf]
    | none => simp [List.findSome?_cons, hf, ih]

theorem findSome_eq_some (f : α → Option β) (l : List α) (b : β)
    (h : l.findSome? f = some b) : ∃ a ∈ l, f a = some b := by
  induction l with
  | nil => simp at h
  | cons a t ih =>
    rw [List.findSome?_cons] at h
    cases hf : f a with
    | some v =>
      rw [hf] at h
      exact ⟨a, by simp, by rw [hf, Option.some_inj.mp h]⟩
    | none =>
      rw [hf] at h
      obtain ⟨x, hx, hfx⟩ := ih h
      exact ⟨x, by simp [hx], hfx⟩

/-- The bindings tried by rule `switch_supplier_on_high_risk`: the first
(RegionRisk, ActiveSupplier, Supplier) instance triple satisfying its
condition, exactly as `passStep` tries them. -/
def switchMatch (st : Store) :
    Option (RegionRisk × ActiveSupplier × Supplier) :=
  firstTriple switchCond st.risks st.actives st.suppliers

theorem firstTriple_isSome_iff (p : α → β → γ → Bool)
    (as : List α) (bs : List β) (cs : List γ) :
    (firstTriple p as bs cs).isSome = true ↔
      ∃ a ∈ as, ∃ b ∈ bs, ∃ c ∈ cs, p a b c = true := by
  unfold firstTriple
  rw [findSome_isSome_iff]
  refine exists_congr fun a => and_congr_right fun _ => ?_
  rw [Option.isSome_map', findSome_isSome_iff]
  refine exists_congr fun b => and_congr_right fun _ => ?_
  rw [Option.isSome_map', find_isSome_iff]

theorem firstTriple_eq_some (p : α → β → γ → Bool)
    (as : List α) (bs : List β) (cs : List γ) (a : α) (b : β) (c : γ)
    (h : firstTriple p as bs cs = some (a, b, c)) :
    a ∈ as ∧ b ∈ bs ∧ c ∈ cs ∧ p a b c = true := by
  unfold firstTriple at h
  obtain ⟨a0, ha0, h1⟩ := findSome_eq_some _ _ _ h
  rw [Option.map_eq_some'] at h1
  obtain ⟨bc, h2, h3⟩ := h1
  obtain ⟨b0, hb0, h4⟩ := findSome_eq_some _ _ _ h2
  rw [Option.map_eq_some'] at h4
  obtain ⟨c0, h5, h6⟩ := h4
  have hc0 := List.mem_of_find?_eq_some h5
  have hp0 := List.find?_some h5
  subst h6
  obtain ⟨rfl, rfl, rfl⟩ : a0 = a ∧ b0 = b ∧ c0 = c := by
    simpa [Prod.ext_iff] using h3
  exact ⟨ha0, hb0, hc0, hp0⟩

/-- C3: the supplier-switch rule's bindings admit a match exactly when some
region's risk is HIGH, the active supplier operates in that same region, and
a supplier in a different region exists; firing replaces the single
`ActiveSupplier` with that alternate supplier's name and region. -/
theorem claim_C3 (st : Store) (a : ActiveSupplier) (ha : st.actives = [a]) :
    ((switchMatch st).isSome = true ↔
      ((∃ r ∈ st.risks, r.level = "HIGH" ∧ a.supplier_region = r.region) ∧
        ∃ s ∈ st.suppliers, s.region ≠ a.supplier_region)) ∧
    (∀ r a2 s, switchMatch st = some (r, a2, s) →
      s ∈ st.suppliers ∧ s.region ≠ a.supplier_region ∧
      (switch_supplier_action st s).actives =
        [{ supplier_name := s.name, supplier_region := s.region }]) := by
  constructor
  · rw [switchMatch, firstTriple_isSome_iff, ha]
    constructor
    · rintro ⟨r, hr, a2, ha2, s, hs, hp⟩
      simp only [List.mem_singleton] at ha2
      subst ha2
      simp only [switchCond, Bool.and_eq_true, beq_iff_eq, bne_iff_ne] at hp
      exact ⟨⟨r, hr, hp.1.1, hp.1.2⟩, ⟨s, hs, hp.2⟩⟩
    · rintro ⟨⟨r, hr, h1, h2⟩, ⟨s, hs, h3⟩⟩
      refine ⟨r, hr, a, by simp, s, hs, ?_⟩
      simp only [switchCond, Bool.and_eq_true, beq_iff_eq, bne_iff_ne]
      exact ⟨⟨h1, h2⟩, h3⟩
  · intro r a2 s hm
    obtain ⟨_, ha2, hs, hp⟩ := firstTriple_eq_some _ _ _ _ _ _ _ hm
    rw [ha] at ha2
    simp only [List.mem_singleton] at ha2
    subst ha2
    simp only [switchCond, Bool.and_eq_true, bne_iff_ne] at hp
    exact ⟨hs, hp.2, rfl⟩

/-- A store with the Eastern Corridor at HIGH risk, used to exercise C3. -/
def highRiskDemoStore : Store :=
  { suppliers := [INITIAL_SUPPLIER, BACKUP_SUPPLIER],
    bulletins := [],
    risks := [⟨"Eastern Corridor", "HIGH"⟩, ⟨"Western Corridor", "LOW"⟩],
    actives := [INITIAL_ACTIVE_SUPPLIER],
    alerts := [],
    trace := [] }

/-- Witness for C3: on `highRiskDemoStore` the rule matches and switches to the
backup supplier. -/
theorem claim_C3_witness :
    highRiskDemoStore.actives = [INITIAL_ACTIVE_SUPPLIER] ∧
    (switchMatch highRiskDemoStore).isSome = true ∧
    (switch_supplier_action highRiskDemoStore BACKUP_SUPPLIER).actives =
      [{ supplier_name := "TechFlow Solutions", supplier_region := "Western Corridor" }] :=
  ⟨rfl,
   ((claim_C3 highRiskDemoStore INITIAL_ACTIVE_SUPPLIER rfl).1).mpr (by decide),
   by
    have h := ((claim_C3 highRiskDemoStore INITIAL_ACTIVE_SUPPLIER rfl).2
      ⟨"Eastern Corridor", "HIGH"⟩ INITIAL_ACTIVE_SUPPLIER BACKUP_SUPPLIER rfl).2.2
    simpa using h⟩

/-! ### Scenario driver (`runners/mock_simulation.py`, `run_scenario`) -/

/-- Embedding of `run_scenario` from `runners/mock_simulation.py`.  The file
system is modelled by the optional file content (`none` stands for
`FileNotFoundError`), printing by the returned list of output lines, and the
flag records whether `engine.evaluate()` ran.  An uncaught exception would be
`Except.error` (the `engine[ActiveSupplier]` lookup raises `KeyError` when no
such fact exists); the missing-file error is caught in the source and the
function returns normally. -/
def run_scenario (event_file : String) (file_content : Option String) :
    Except String (List String × Bool) :=
  let header := "--- Running Mock Microprompt Scenario for Event: " ++ event_file ++ " ---\n"
  match file_content with
  | none => .ok ([header, "Error: Event file not found at " ++ event_file], false)
  | some content =>
    let eng := evaluate mockRules 16 (initEng content)
    let alertLines :=
      if eng.store.alerts.isEmpty then ["  - No alerts generated."]
      else eng.store.alerts.map (fun a => "  - " ++ a.message)
    match eng.store.actives.head? with
    | none => .error "KeyError: ActiveSupplier"
    | some a =>
      .ok (header :: "Loaded event trigger.\n" :: "--- Evaluating Rules ---" ::
        "--- Evaluation Complete ---\n" :: "Generated Alerts:" :: alertLines ++
        ["\nActive supplier is: " ++ a.supplier_name ++ ", (" ++ a.supplier_region ++ ")",
         "\n--- Scenario Complete ---"], true)

/-- Exit code of the runner process: a normal return from `run_scenario`
exits 0, an uncaught exception would exit nonzero. -/
def exit_code (r : Except String (List String × Bool)) : Nat :=
  match r with
  | .ok _ => 0
  | .error _ => 1

/-- C6: when the event file cannot be located, `run_scenario` prints the
error line and returns normally: no exception, no rule evaluation, no alert
or final-supplier output, and the process reports success (exit code 0). -/
theorem claim_C6 (event_file : String) :
    run_scenario event_file none =
      .ok (["--- Running Mock Microprompt Scenario for Event: " ++ event_file ++ " ---\n",
            "Error: Event file not found at " ++ event_file], false) ∧
    exit_code (run_scenario event_file none) = 0 :=
  ⟨rfl, rfl⟩

/-! ### Fixed-point stability and the ActiveSupplier invariant -/

/-- C7: a fixed point of the rule set is stable: when no rule can fire,
re-running the cascade evaluation with no new input fact changes no fact and
appends no additional alert. -/
theorem claim_C7 (R : RuleSet) (fuel : Nat) (e : EngState)
    (h : passStep R e = none) : evaluate R fuel e = e := by
  cases fuel with
  | zero => rfl
  | succ n =>
    unfold evaluate
    rw [h]

/-- Witness for C7: the seeded state with an empty bulletin is a fixed point
and re-evaluation leaves it unchanged. -/
theorem claim_C7_witness :
    passStep mockRules (initEng "") = none ∧
    evaluate mockRules 16 (initEng "") = initEng "" :=
  ⟨rfl, claim_C7 mockRules 16 (initEng "") rfl⟩

/-- States reachable from `a` along cascade firings. -/
inductive Reaches (R : RuleSet) : EngState → EngState → Prop
  | refl (e : EngState) : Reaches R e e
  | step {a b c : EngState} : passStep R a = some b → Reaches R b c → Reaches R a c

theorem passStep_actives (R : RuleSet) (a b : EngState)
    (h : passStep R a = some b) :
    b.store.actives = a.store.actives ∨ ∃ s : Supplier,
      b.store.actives = [{ supplier_name := s.name, supplier_region := s.region }] := by
  simp only [passStep] at h
  repeat' split at h
  all_goals
    first
      | (obtain rfl := Option.some_inj.mp h
         exact Or.inl rfl)
      | (obtain rfl := Option.some_inj.mp h
         exact Or.inr ⟨_, rfl⟩)
      | (simp at h)

theorem reaches_actives_one {R : RuleSet} {a c : EngState} (h : Reaches R a c)
    (ha : a.store.actives.length = 1) : c.store.actives.length = 1 := by
  induction h with
  | refl e => exact ha
  | step hs _ ih =>
    apply ih
    rcases passStep_actives _ _ _ hs with heq | ⟨s, hl⟩
    · rw [heq]; exact ha
    · rw [hl]; rfl

/-- C8: throughout a scenario run — in the seeded state and after every rule
firing — exactly one `ActiveSupplier` fact exists: the driver seeds one and
the supplier-switch action replaces the value instead of accumulating. -/
theorem claim_C8 (R : RuleSet) (content : String) (e : EngState)
    (h : Reaches R (initEng content) e) : e.store.actives.length = 1 :=
  reaches_actives_one h rfl

theorem reaches_evaluate (R : RuleSet) (fuel : Nat) (e : EngState) :
    Reaches R e (evaluate R fuel e) := by
  induction fuel generalizing e with
  | zero => exact Reaches.refl e
  | succ n ih =>
    unfold evaluate
    cases hp : passStep R e with
    | some e2 => exact Reaches.step hp (ih e2)
    | none => exact Reaches.refl e

/-- Witness for C8: the invariant holds at the end state of the full tariff
scenario run, which is reachable from the seeded state. -/
theorem claim_C8_witness :
    (evaluate mockRules 16 (initEng "Tariffs announced on electronics")).store.actives.length = 1 :=
  claim_C8 mockRules "Tariffs announced on electronics" _
    (reaches_evaluate mockRules 16 (initEng "Tariffs announced on electronics"))

/-! ### Enhanced-mode escalation (C4) -/

theorem criticalKw_content_ne_empty {content : String}
    (h : hasCriticalKw content = true) : (content != "") = true := by
  cases he : content == "" with
  | false => simp [bne, he]
  | true =>
    have hc : content = "" := eq_of_beq he
    subst hc
    exact absurd h (by decide)

/-- C4: when the AI classification yields MEDIUM for a bulletin whose text
contains a critical keyword, the enhanced cascade replaces the region's risk
with HIGH and emits the traceable override line, while the baseline cascade
leaves the risk at MEDIUM on the same inputs. -/
theorem claim_C4 (content : String) (oracle : String → String → String)
    (hk : hasCriticalKw content = true)
    (hr : ask_llm (oracle content "Eastern Corridor") = .ok (true, "MEDIUM", true)) :
    riskFor (evaluate (enhancedRules oracle) 8 (initEng content)).store "Eastern Corridor"
        = some "HIGH" ∧
    fallbackLine ∈ (evaluate (enhancedRules oracle) 8 (initEng content)).store.trace ∧
    riskFor (evaluate (baselineRules oracle) 8 (initEng content)).store "Eastern Corridor"
        = some "MEDIUM" := by
  have hne := criticalKw_content_ne_empty hk
  have hai : ai_classify oracle content "Eastern Corridor" = "MEDIUM" := by
    unfold ai_classify classify_and_print
    rw [hr]
    rfl
  refine ⟨?_, ?_, ?_⟩ <;>
    simp [evaluate, passStep, initEng, initStore, INITIAL_SUPPLIER, BACKUP_SUPPLIER,
      INITIAL_ACTIVE_SUPPLIER, INITIAL_REGION_RISK_EASTERN, INITIAL_REGION_RISK_WESTERN,
      enhancedRules, baselineRules, hai, hne, hk, classifyCond, escalateCond, switchCond,
      alertSwitchCond, alertMediumCond, memD, replaceRisk, firstPair, firstTriple,
      switch_supplier_action, riskFor, List.find?, List.findSome?, criticalMsg, mediumMsg]

/-- Witness for C4 at a concrete strike bulletin and a MEDIUM-classifying
reply. -/
theorem claim_C4_witness :
    hasCriticalKw "Port strike announced" = true ∧
    ask_llm "YES MEDIUM YES" = .ok (true, "MEDIUM", true) ∧
    (riskFor (evaluate (enhancedRules (fun _ _ => "YES MEDIUM YES")) 8
        (initEng "Port strike announced")).store "Eastern Corridor" = some "HIGH" ∧
      fallbackLine ∈ (evaluate (enhancedRules (fun _ _ => "YES MEDIUM YES")) 8
        (initEng "Port strike announced")).store.trace ∧
      riskFor (evaluate (baselineRules (fun _ _ => "YES MEDIUM YES")) 8
        (initEng "Port strike announced")).store "Eastern Corridor" = some "MEDIUM") :=
  ⟨rfl, rfl, claim_C4 "Port strike announced" (fun _ _ => "YES MEDIUM YES") rfl rfl⟩
